import Mathlib

/-!
Verification development for the multi-modal reasoning service
(`backend/app/services/multimodal_service.py` and the link-listing endpoint in
`backend/main.py`).

Embedding conventions:
* Python floats are modelled as exact rationals (`ℚ`); all score arithmetic in
  the source is plain `*`, `/`, `min`, so the rational model is faithful up to
  float rounding, which no property here depends on.
* Python dicts that are used as keyed caches are modelled as insertion-ordered
  association lists (`List (String × α)`): assignment to an existing key
  replaces the stored value in place, assignment to a fresh key appends.
* JSON values that the code only ever formats into strings (`f"{...}"`) are
  carried already rendered as `String`s; a JSON key that may be absent is an
  `Option`.
* The vision/text model capability is an oracle: each capability call's
  outcome (reply text, or an exception caught at the call site) and each
  `json.loads` outcome is an input to the embedded function, never computed.
* Exceptions are modelled by explicit boolean/enumerated failure inputs at the
  places where the source's `try`/`except` blocks can actually observe them.
-/

namespace MultiModal

/-! ### Python string primitives

The service uses `str.lower()`, `str.split()` (no separator: split on
whitespace runs, discarding empty tokens), slicing `s[:n]`, `" ".join`, and
`str.title()`.  They are modelled character-listwise so that every concrete
instance reduces in the kernel.  (`lower`/`title` are ASCII-faithful; the
source only ever feeds them ASCII chart-type names and tokens.) -/

/-- Python `str.lower()`. -/
def pyLower (s : String) : String := String.mk (s.toList.map Char.toLower)

/-- Worker for `pySplitWs`: accumulates the current word (reversed). -/
def splitWsGo : List Char → List Char → List String
  | acc, [] => if acc.isEmpty then [] else [String.mk acc.reverse]
  | acc, c :: cs =>
    if c.isWhitespace then
      if acc.isEmpty then splitWsGo [] cs
      else String.mk acc.reverse :: splitWsGo [] cs
    else splitWsGo (c :: acc) cs

/-- Python `str.split()` with no argument: split on runs of whitespace and
drop empty tokens (so `"".split() = []`). -/
def pySplitWs (s : String) : List String := splitWsGo [] s.toList

/-- Python slicing `s[:n]` (by characters). -/
def pyTake (n : ℕ) (s : String) : String := String.mk (s.toList.take n)

/-- Python `sep.join(parts)`. -/
def pyJoin (sep : String) (parts : List String) : String :=
  match parts with
  | [] => ""
  | p :: ps => ps.foldl (fun acc q => acc ++ sep ++ q) p

/-- Worker for `pyTitle`; the flag records whether the previous character was
alphabetic (Python: "cased"). -/
def pyTitleGo : Bool → List Char → List Char
  | _, [] => []
  | prevAlpha, c :: cs =>
    (if prevAlpha then c.toLower else c.toUpper) :: pyTitleGo c.isAlpha cs

/-- Python `str.title()` (ASCII approximation: a letter after a non-letter is
upper-cased, any other letter lower-cased). -/
def pyTitle (s : String) : String := String.mk (pyTitleGo false s.toList)

/-- Python `str(x)` for an optional already-rendered JSON value: `None`
renders as the string `"None"`. -/
def renderOpt : Option String → String
  | some v => v
  | none => "None"

/-! ### RelevanceScorer — `MultiModalService._calculate_text_relevance`

```python
query_words = set(query.lower().split())
text_words = set(text.lower().split())
overlap = len(query_words.intersection(text_words))
return overlap / max(len(query_words), 1)
```

A Python `set` built from a token list is modelled by `List.dedup` (distinct
tokens); `len(set ∩ set)` is the number of distinct query tokens that also
occur among the text tokens.  The body cannot raise on any string input, so
the `except: return 0.0` clause is unreachable and not modelled. -/

/-- The distinct tokens of `s.lower().split()` — Python `set(s.lower().split())`. -/
def tokenSet (s : String) : List String := (pySplitWs (pyLower s)).dedup

/-- `MultiModalService._calculate_text_relevance`. -/
def calculate_text_relevance (query text : String) : ℚ :=
  let query_words := tokenSet query
  let text_words := tokenSet text
  let overlap := (query_words.filter (fun w => decide (w ∈ text_words))).length
  (overlap : ℚ) / ((max query_words.length 1 : ℕ) : ℚ)

/-! ### Keyed caches — Python `dict` as insertion-ordered association list

`self.chart_cache` and `self.visual_text_links` are plain dicts.  Python dict
assignment keeps the position of an existing key and appends a fresh key;
iteration (`values()`, `items()`) is in insertion order. -/

/-- Python `d[k] = v` on a dict represented as an association list. -/
def dictInsert {α : Type} (cache : List (String × α)) (k : String) (v : α) :
    List (String × α) :=
  if cache.any (fun p => p.1 = k) then
    cache.map (fun p => if p.1 = k then (k, v) else p)
  else cache ++ [(k, v)]

/-- Python `d.get(k)` / `d[k]` lookup. -/
def dictGet {α : Type} (cache : List (String × α)) (k : String) : Option α :=
  (cache.find? (fun p => p.1 = k)).map Prod.snd

/-- Python `d.values()` (insertion order). -/
def dictValues {α : Type} (cache : List (String × α)) : List α :=
  cache.map Prod.snd

/-! ### Data model

`ChartAnalysis` and `VisualTextLink` are the two record classes of
`multimodal_service.py`.  The `image_id` slot on `ChartAnalysis` models the
*dynamic attribute* that `_get_chart_analysis_by_image_id` probes with
`hasattr(analysis, "image_id")`: `none` means the attribute was never set
(which is the case for every analysis the service itself constructs — neither
`ChartAnalysis.__init__` nor `analyze_chart_to_text` assigns it). -/

/-- JSON value of a `key_statistics` entry such as `"highest"`:
the key may be absent, present but falsy (`{}`/`null`/`0`), or a truthy
record with optional `category`/`value` fields (values carried rendered). -/
inductive StatField : Type
  | absent : StatField
  | falsy : StatField
  | entry : Option String → Option String → StatField
deriving DecidableEq

/-- The `key_statistics` sub-dict of a parsed data-extraction reply.  The
`total` key is requested by the prompt but never read by the code, so it is
not carried.  `average` is an optional rendered value (the code only checks
key presence for it, never truthiness). -/
structure KeyStatistics : Type where
  highest : StatField
  lowest : StatField
  average : Option String
deriving DecidableEq

/-- One element of the parsed `data_points` array.  Each key may be absent. -/
structure DataPoint : Type where
  category : Option String
  value : Option String
  series : Option String
deriving DecidableEq

/-- The `data_insights` dict produced by `_extract_chart_data`.  A list-valued
key that is absent is modelled as `[]` (the code guards every use with a
truthiness test, under which absent and `[]` coincide); `key_statistics`
`none` models the key being absent/falsy-empty (`.get("key_statistics", {})`
then falls back to the empty dict, which carries no keys either way). -/
structure DataInsights : Type where
  data_points : List DataPoint
  trends : List String
  key_statistics : Option KeyStatistics
  insights : List String
  raw_analysis : Option String
deriving DecidableEq

/-- The `data_insights` value on the failure paths that return `{}`. -/
def emptyInsights : DataInsights :=
  { data_points := [], trends := [], key_statistics := none,
    insights := [], raw_analysis := none }

/-- The parsed chart-structure reply of `_identify_chart_structure`.  Only the
`type`, `title`, `confidence` and `raw_response` keys are ever read
downstream; the axis/legend/series keys of the prompt's schema are never
consumed and are not carried.  `none` models an absent key. -/
structure ChartMetadata : Type where
  type? : Option String
  title? : Option String
  confidence? : Option ℚ
  raw_response? : Option String
deriving DecidableEq

/-- `ChartAnalysis` (plus the modelled dynamic `image_id` attribute slot). -/
structure ChartAnalysis : Type where
  chart_type : String
  data_insights : DataInsights
  text_content : String
  confidence : ℚ
  queryable_facts : List String
  image_id : Option String
deriving DecidableEq

/-- `VisualTextLink`. -/
structure VisualTextLink : Type where
  visual_id : String
  text_chunks : List String
  relationship : String
  confidence : ℚ
deriving DecidableEq

/-- Modelled from the spec: `DocumentImage` of `app/models/schemas.py`
(not under `src/`); fields per spec section 6 ("image store" collaborator). -/
structure DocumentImage : Type where
  id : String
  document_id : String
  page_number : ℤ
  image_type : String
  description : Option String
  image_url : Option String
deriving DecidableEq

/-- Modelled from the spec: `DocumentChunk` of `app/models/schemas.py`
(not under `src/`); fields per spec section 6 ("text chunk store"). -/
structure DocumentChunk : Type where
  id : String
  document_id : String
  content : String
  page_number : ℤ
deriving DecidableEq

/-- The metadata keys of a `SearchResult` that this service reads or writes
(`document_id`/`page_number` are read; the rest are written).  `none` models
an absent key. -/
structure RMeta : Type where
  document_id : Option String
  page_number : Option ℤ
  visual_enhancements : Option ℕ
  chart_type : Option String
  data_insights : Option DataInsights
  queryable_facts : Option (List String)
  visual_id : Option String
  relationship : Option String
  link_confidence : Option ℚ
deriving DecidableEq

/-- A metadata mapping with no keys set. -/
def emptyMeta : RMeta :=
  { document_id := none, page_number := none, visual_enhancements := none,
    chart_type := none, data_insights := none, queryable_facts := none,
    visual_id := none, relationship := none, link_confidence := none }

/-- Modelled from the spec: `SearchResult` of `app/models/schemas.py`
(not under `src/`); fields per spec section 3.  `source_type` carries the
`SourceType` enum value as its string (the service only ever writes
`SourceType.IMAGE`, rendered `"image"`). -/
structure SearchResult : Type where
  id : String
  title : String
  content : String
  source_type : String
  url : Option String
  confidence_score : ℚ
  metadata : RMeta
deriving DecidableEq

/-! ### ChartAnalyzer — the four-stage pipeline of `analyze_chart_to_text`

The model capability and `json.loads` are oracles supplied as inputs:

* `CapCall` is the outcome of the underlying `generate_content` call inside
  `_analyze_with_gemini` / `_analyze_with_claude` — either the reply text or
  an exception, which the helper itself catches and converts to the sentinel
  `"Analysis failed"`.
* each stage's `parse` field abstracts `json.loads` plus the duck-typed field
  reads on the parsed reply: `some` is a successful parse, `none` a
  `JSONDecodeError` (so the stage takes its documented fallback).
* each stage's `raises` flag models an exception escaping the rest of the
  stage body, landing in the stage's own `except` clause. -/

/-- Outcome of one capability call, as seen inside the call-site helper. -/
inductive CapCall : Type
  | reply : String → CapCall
  | raised : CapCall

/-- `_analyze_with_gemini` (and `_analyze_with_claude` behaves identically at
this level): a raised capability call is caught and becomes the sentinel
`"Analysis failed"`; an empty reply becomes `"No response generated"`. -/
def analyze_with_gemini (c : CapCall) : String :=
  match c with
  | .reply t => if t = "" then "No response generated" else t
  | .raised => "Analysis failed"

/-- Oracle inputs for `_identify_chart_structure`. -/
structure Stage1Env : Type where
  call : CapCall
  parse : String → Option ChartMetadata
  raises : Bool

/-- Oracle inputs for `_extract_chart_data`. -/
structure Stage2Env : Type where
  call : CapCall
  parse : String → Option DataInsights
  raises : Bool

/-- Oracle inputs for `_generate_chart_text_description` (its reply is used
verbatim, never parsed). -/
structure Stage3Env : Type where
  call : CapCall
  raises : Bool

/-- `MultiModalService._identify_chart_structure`.  `available` is the
condition `settings.ai_provider == "gemini" and self.genai_client` (or the
claude analogue); when false the stage returns
`{"type": "unknown", "confidence": 0.0}` without calling the capability, and
its `except` clause returns the same dict. -/
def identify_chart_structure (available : Bool) (env : Stage1Env) :
    ChartMetadata :=
  if env.raises then
    { type? := some "unknown", title? := none, confidence? := some 0,
      raw_response? := none }
  else if available then
    let response := analyze_with_gemini env.call
    match env.parse response with
    | some m => m
    | none =>
      { type? := some "chart", title? := some "Unknown Chart",
        confidence? := some (3/10), raw_response? := some response }
  else
    { type? := some "unknown", title? := none, confidence? := some 0,
      raw_response? := none }

/-- `MultiModalService._extract_chart_data`.  The identified chart type is
only interpolated into the prompt, so it does not affect the result shape;
no client and the `except` clause both return `{}`. -/
def extract_chart_data (available : Bool) (env : Stage2Env)
    (_metadata : ChartMetadata) : DataInsights :=
  if env.raises then emptyInsights
  else if available then
    let response := analyze_with_gemini env.call
    match env.parse response with
    | some d => d
    | none => { emptyInsights with raw_analysis := some response }
  else emptyInsights

/-- `MultiModalService._generate_chart_text_description`: the model's
free-text description (or the no-client fixed string), deterministically
extended with a "Key Statistics" line when `data_insights` carries a truthy
`key_statistics` dict.  The statistics appends test key *presence* only
(`"highest" in stats`), rendering a missing `value` as Python prints `None`. -/
def generate_chart_text_description (available : Bool) (env : Stage3Env)
    (metadata : ChartMetadata) (data_insights : DataInsights)
    (_context : String) : String :=
  if env.raises then "Chart description generation failed"
  else
    let chart_type := metadata.type?.getD "chart"
    let title := metadata.title?.getD "Untitled Chart"
    let description :=
      if available then analyze_with_gemini env.call
      else "Chart of type " ++ chart_type ++ " with title " ++ title
    match data_insights.key_statistics with
    | none => description
    | some stats =>
      let description := description ++ "\n\nKey Statistics: "
      let description :=
        match stats.highest with
        | .absent => description
        | .falsy => description ++ "Highest value: None "
        | .entry _ v => description ++ "Highest value: " ++ renderOpt v ++ " "
      let description :=
        match stats.lowest with
        | .absent => description
        | .falsy => description ++ "Lowest value: None "
        | .entry _ v => description ++ "Lowest value: " ++ renderOpt v ++ " "
      match stats.average with
      | none => description
      | some a => description ++ "Average: " ++ a ++ " "

/-- The fact a data point contributes in `_extract_queryable_facts`, if it has
both a `category` and a `value` key. -/
def pointFact (p : DataPoint) : Option String :=
  match p.category, p.value with
  | some c, some v => some ("" ++ c ++ ": " ++ v)
  | _, _ => none

/-- The statistics facts of `_extract_queryable_facts`: `highest` and
`lowest` require key presence *and* truthiness, `average` key presence only. -/
def statFacts (stats : Option KeyStatistics) : List String :=
  match stats with
  | none => []
  | some s =>
    (match s.highest with
     | .entry c v =>
       ["Highest value: " ++ renderOpt v ++ " (" ++ renderOpt c ++ ")"]
     | _ => []) ++
    (match s.lowest with
     | .entry c v =>
       ["Lowest value: " ++ renderOpt v ++ " (" ++ renderOpt c ++ ")"]
     | _ => []) ++
    (match s.average with
     | some a => ["Average value: " ++ a]
     | none => [])

/-- `MultiModalService._extract_queryable_facts`.  Purely deterministic (no
capability call); appends fact groups strictly in source order: chart type,
title, first 10 data points, trends, statistics, insights.  (Its `except`
clause would return the facts accumulated so far; nothing in the pure model
can raise, so it is not modelled.)  The `text_content` parameter is accepted
and ignored exactly as in the source. -/
def extract_queryable_facts (metadata : ChartMetadata)
    (data_insights : DataInsights) (_text_content : String) : List String :=
  let facts : List String := []
  let facts :=
    match metadata.type? with
    | some t => if t = "" then facts else facts ++ ["This is a " ++ t]
    | none => facts
  let facts :=
    match metadata.title? with
    | some t => if t = "" then facts else facts ++ ["Chart title: " ++ t]
    | none => facts
  let facts :=
    if data_insights.data_points.isEmpty then facts
    else facts ++ (data_insights.data_points.take 10).filterMap pointFact
  let facts :=
    if data_insights.trends.isEmpty then facts
    else facts ++ data_insights.trends.map (fun t => "Trend: " ++ t)
  let facts := facts ++ statFacts data_insights.key_statistics
  if data_insights.insights.isEmpty then facts
  else facts ++ data_insights.insights

/-- The oracle inputs of one `analyze_chart_to_text` run.  `outerRaises`
models an exception reaching the *outer* `try` of `analyze_chart_to_text`
itself (every stage catches its own exceptions, so the outer handler can only
be reached from the residual operations of the body — construction, caching,
logging). -/
structure AnalyzeEnv : Type where
  available : Bool
  s1 : Stage1Env
  s2 : Stage2Env
  s3 : Stage3Env
  context : String
  outerRaises : Bool

/-- The degraded analysis `ChartAnalysis("unknown", {}, "Chart analysis
failed", 0.0)` returned by the outer `except` clause. -/
def failedAnalysis : ChartAnalysis :=
  { chart_type := "unknown", data_insights := emptyInsights,
    text_content := "Chart analysis failed", confidence := 0,
    queryable_facts := [], image_id := none }

/-- `MultiModalService.analyze_chart_to_text` (the returned analysis). -/
def analyze_chart_to_text (env : AnalyzeEnv) : ChartAnalysis :=
  if env.outerRaises then failedAnalysis
  else
    let chart_metadata := identify_chart_structure env.available env.s1
    let data_insights := extract_chart_data env.available env.s2 chart_metadata
    let text_content :=
      generate_chart_text_description env.available env.s3 chart_metadata
        data_insights env.context
    let queryable_facts :=
      extract_queryable_facts chart_metadata data_insights text_content
    { chart_type := chart_metadata.type?.getD "unknown",
      data_insights := data_insights,
      text_content := text_content,
      confidence := chart_metadata.confidence?.getD (1/2),
      queryable_facts := queryable_facts,
      image_id := none }

/-- `analyze_chart_to_text` together with its side effect on
`self.chart_cache` (keyed by the fresh `str(uuid.uuid4())`, passed in as
`chart_id`).  On the outer-exception path no cache write happens. -/
def analyze_chart_to_text_cached (env : AnalyzeEnv)
    (chart_cache : List (String × ChartAnalysis)) (chart_id : String) :
    ChartAnalysis × List (String × ChartAnalysis) :=
  if env.outerRaises then (failedAnalysis, chart_cache)
  else
    let analysis := analyze_chart_to_text env
    (analysis, dictInsert chart_cache chart_id analysis)

/-! ### VisualTextLinker — `create_visual_text_links`

`_analyze_visual_text_relationships` (one capability call plus JSON parse per
image, with a parse-failure fallback record and an `except` clause returning
`[]`) is abstracted as an oracle `relFn` from the image and its candidate
chunks to the list of relationship records the helper returns; every shape
that helper can produce is some list of records, and no claim depends on
which internal path produced it. -/

/-- One relationship record consumed by the linking loop (the `explanation`
key is produced by the prompt/fallback but never read). -/
structure RelRecord : Type where
  relationship : String
  text_chunks : List String
  confidence : ℚ
deriving DecidableEq

/-- The parse-failure fallback of `_analyze_visual_text_relationships`: one
synthetic `"general"` record built from the first 100 characters of up to 2
candidate chunks, confidence 0.3. -/
def fallbackRelRecords (chunks : List DocumentChunk) : List RelRecord :=
  [{ relationship := "general",
     text_chunks := (chunks.take 2).map (fun c => pyTake 100 c.content),
     confidence := 3/10 }]

/-- The candidate text chunks for one image: page number within ±1 of the
image's page (`abs(chunk.page_number - image.page_number) <= 1`). -/
def related_chunks_for (image : DocumentImage)
    (text_chunks : List DocumentChunk) : List DocumentChunk :=
  text_chunks.filter (fun chunk =>
    decide (|chunk.page_number - image.page_number| ≤ 1))

/-- `MultiModalService.create_visual_text_links`: returns the accumulated
links and the updated `self.visual_text_links` cache.  An image with no
candidate chunks is skipped (`continue`).  Each emitted record becomes one
link appended to the output and written to the cache under the image's id
(so the cache retains only the last record per image).  (The surrounding
`try`/`except` returns `[]` on failure; nothing in the loop body outside the
already-caught helpers can raise, so it is not modelled.) -/
def create_visual_text_links
    (relFn : DocumentImage → List DocumentChunk → List RelRecord)
    (images : List DocumentImage) (text_chunks : List DocumentChunk)
    (cache : List (String × VisualTextLink)) :
    List VisualTextLink × List (String × VisualTextLink) :=
  images.foldl
    (fun st image =>
      let related_chunks := related_chunks_for image text_chunks
      if related_chunks.isEmpty then st
      else
        (relFn image related_chunks).foldl
          (fun st r =>
            let link : VisualTextLink :=
              { visual_id := image.id, text_chunks := r.text_chunks,
                relationship := r.relationship, confidence := r.confidence }
            (st.1 ++ [link], dictInsert st.2 image.id link))
          st)
    ([], cache)

/-! ### MultiModalSearchOrchestrator — `multi_modal_search` and helpers -/

/-- `MultiModalService._get_chart_analysis_by_image_id`: scan the chart cache
for an analysis that *has* an `image_id` attribute equal to the requested id
(`hasattr(analysis, "image_id") and analysis.image_id == image_id`). -/
def get_chart_analysis_by_image_id
    (chart_cache : List (String × ChartAnalysis)) (image_id : String) :
    Option ChartAnalysis :=
  (dictValues chart_cache).find? (fun a => a.image_id = some image_id)

/-- The "Visual Context" fragments built by
`_enhance_text_with_visual_context` from the first 3 related images: a
`"Related image: ..."` fragment per truthy description, and a
`"Chart data: ..."` fragment per chart/graph/diagram image whose id has a
cached analysis. -/
def visual_context_fragments (chart_cache : List (String × ChartAnalysis))
    (related_images : List DocumentImage) : List String :=
  (related_images.take 3).flatMap (fun img =>
    (match img.description with
     | some d => if d = "" then [] else ["Related image: " ++ d]
     | none => []) ++
    (if img.image_type = "chart" ∨ img.image_type = "graph" ∨
        img.image_type = "diagram" then
      match get_chart_analysis_by_image_id chart_cache img.id with
      | some chart_analysis =>
        ["Chart data: " ++ pyTake 200 chart_analysis.text_content]
      | none => []
    else []))

/-- `MultiModalService._enhance_text_with_visual_context`: images sharing the
result's `document_id` metadata within ±1 of its `page_number` metadata
(default 0) contribute context fragments; if at least one fragment exists the
result's content is extended and `visual_enhancements` is set to the fragment
count.  In Python this *mutates* `text_result` in place and returns the same
object. -/
def enhance_text_with_visual_context
    (chart_cache : List (String × ChartAnalysis))
    (image_results : List DocumentImage) (text_result : SearchResult) :
    SearchResult :=
  let related_images := image_results.filter (fun img =>
    (match text_result.metadata.document_id with
     | some d => img.document_id = d
     | none => false) &&
    decide (|img.page_number - text_result.metadata.page_number.getD 0| ≤ 1))
  if related_images.isEmpty then text_result
  else
    let visual_context := visual_context_fragments chart_cache related_images
    if visual_context.isEmpty then text_result
    else
      { text_result with
        content := text_result.content ++ "\n\nVisual Context: " ++
          pyJoin " " visual_context,
        metadata := { text_result.metadata with
          visual_enhancements := some visual_context.length } }

/-- The `SearchResult` built for a cache entry in `_search_chart_analyses`. -/
def mkChartResult (chart_id : String) (analysis : ChartAnalysis)
    (relevance : ℚ) : SearchResult :=
  { id := "chart_" ++ chart_id,
    title := pyTitle analysis.chart_type ++ " Chart",
    content := analysis.text_content,
    source_type := "image",
    url := none,
    confidence_score := relevance * analysis.confidence,
    metadata := { emptyMeta with
      chart_type := some analysis.chart_type,
      data_insights := some analysis.data_insights,
      queryable_facts := some analysis.queryable_facts } }

/-- `MultiModalService._search_chart_analyses`: one candidate per cached
analysis whose relevance to the query strictly exceeds 0.3. -/
def search_chart_analyses (query : String)
    (chart_cache : List (String × ChartAnalysis)) : List SearchResult :=
  chart_cache.filterMap (fun p =>
    let relevance := calculate_text_relevance query p.2.text_content
    if (3/10 : ℚ) < relevance then some (mkChartResult p.1 p.2 relevance)
    else none)

/-- The `SearchResult` built for a cache entry in `_search_visual_text_links`. -/
def mkLinkResult (visual_id : String) (link : VisualTextLink)
    (relevance : ℚ) (combined_text : String) : SearchResult :=
  { id := "link_" ++ visual_id,
    title := "Visual-Text Link (" ++ link.relationship ++ ")",
    content := "Relationship: " ++ link.relationship ++ ". " ++
      pyTake 300 combined_text,
    source_type := "image",
    url := none,
    confidence_score := relevance * link.confidence,
    metadata := { emptyMeta with
      visual_id := some visual_id,
      relationship := some link.relationship,
      link_confidence := some link.confidence } }

/-- `MultiModalService._search_visual_text_links`: one candidate per cached
link whose joined snippets' relevance to the query strictly exceeds 0.3. -/
def search_visual_text_links (query : String)
    (link_cache : List (String × VisualTextLink)) : List SearchResult :=
  link_cache.filterMap (fun p =>
    let combined_text := pyJoin " " p.2.text_chunks
    let relevance := calculate_text_relevance query combined_text
    if (3/10 : ℚ) < relevance then
      some (mkLinkResult p.1 p.2 relevance combined_text)
    else none)

/-- The per-result scoring step of `_rank_multimodal_results`: multiplicative
bonuses for `visual_enhancements` (×1.2), `chart_type` (×1.3) and
`relationship` (×1.1) metadata, then `min(base_score, 1.0)`. -/
def apply_bonus (result : SearchResult) : SearchResult :=
  let base_score := result.confidence_score
  let base_score :=
    if result.metadata.visual_enhancements.isSome then base_score * (12/10)
    else base_score
  let base_score :=
    if result.metadata.chart_type.isSome then base_score * (13/10)
    else base_score
  let base_score :=
    if result.metadata.relationship.isSome then base_score * (11/10)
    else base_score
  { result with confidence_score := min base_score 1 }

/-- The comparison used for the final sort: Python
`sort(key=..., reverse=True)` is a stable descending sort by
`confidence_score`. -/
def rankLe (a b : SearchResult) : Bool :=
  decide (b.confidence_score ≤ a.confidence_score)

/-- `MultiModalService._rank_multimodal_results` (its `except` clause, which
would return the list unsorted, is unreachable in the pure model). -/
def rank_multimodal_results (results : List SearchResult) :
    List SearchResult :=
  (results.map apply_bonus).mergeSort rankLe

/-- Where an exception reaches the outer `try` of `multi_modal_search`.
Every sub-stage catches its own exceptions, so the outer handler can only be
hit from the residual body operations:
* `failAfter k` — the failure strikes in the enhancement loop's own
  append/iteration, at the `extend` calls, or anywhere else before the
  ranking stage; by then the first `k` text results have already been
  mutated in place by `_enhance_text_with_visual_context`;
* `failAfterRanking` — the failure strikes after `_rank_multimodal_results`
  returned (at the final `logger.info` before the `return`); by then every
  candidate — including each enhanced text result, which *is* the caller's
  object — has additionally had its `confidence_score` rescaled in place to
  `min(score × bonuses, 1.0)` by the ranking loop. -/
inductive MMFailure : Type
  | noFail : MMFailure
  | failAfter : ℕ → MMFailure
  | failAfterRanking : MMFailure

/-- `MultiModalService.multi_modal_search`.  On the failure paths the source
returns the *same* `text_results` list object; since enhancement and ranking
mutate its elements in place, that list consists of the already-enhanced
first `k` elements followed by the untouched rest (`failAfter k`), or — when
the failure strikes after the ranking stage — of all elements enhanced and
then score-rescaled by the ranking loop, still in the caller's original
order (the ranking stage sorts the candidate list, not the caller's list). -/
def multi_modal_search (query : String)
    (chart_cache : List (String × ChartAnalysis))
    (link_cache : List (String × VisualTextLink))
    (image_results : List DocumentImage)
    (text_results : List SearchResult) (fail : MMFailure) :
    List SearchResult :=
  match fail with
  | .failAfter k =>
    (text_results.take k).map
      (enhance_text_with_visual_context chart_cache image_results) ++
      text_results.drop k
  | .failAfterRanking =>
    text_results.map (fun r => apply_bonus
      (enhance_text_with_visual_context chart_cache image_results r))
  | .noFail =>
    let enhanced_results := text_results.map
      (enhance_text_with_visual_context chart_cache image_results)
    let enhanced_results :=
      enhanced_results ++ search_chart_analyses query chart_cache
    let enhanced_results :=
      enhanced_results ++ search_visual_text_links query link_cache
    rank_multimodal_results enhanced_results

/-! ### Serving layer — `get_visual_text_links` in `backend/main.py` -/

/-- The rendered link record of the `/multimodal/visual-links/{document_id}`
endpoint. -/
structure LinkView : Type where
  visual_id : String
  relationship : String
  confidence : ℚ
  text_snippets : List String
deriving DecidableEq

/-- The rendering of one cached link by the endpoint. -/
def renderLink (link : VisualTextLink) : LinkView :=
  { visual_id := link.visual_id, relationship := link.relationship,
    confidence := link.confidence, text_snippets := link.text_chunks.take 3 }

/-- `get_visual_text_links` (`backend/main.py`): every cached link whose
`visual_id` contains the document id as a substring
(`if document_id in link.visual_id`), rendered with its first 3 snippets. -/
def get_visual_text_links (link_cache : List (String × VisualTextLink))
    (document_id : String) : List LinkView :=
  ((dictValues link_cache).filter (fun link =>
    decide (document_id.toList <:+: link.visual_id.toList))).map renderLink

/-! ## Helper lemmas -/

/-- The relevance score written with genuine set intersection: the number of
distinct shared tokens over `max(|queryTokens|, 1)`. -/
theorem relevance_eq_inter_card (q t : String) :
    calculate_text_relevance q t =
      (((tokenSet q).toFinset ∩ (tokenSet t).toFinset).card : ℚ) /
        ((max (tokenSet q).toFinset.card 1 : ℕ) : ℚ) := by
  unfold calculate_text_relevance
  dsimp only
  have hq : (tokenSet q).Nodup := List.nodup_dedup _
  have hset : ((tokenSet q).filter (fun w => decide (w ∈ tokenSet t))).toFinset
      = (tokenSet q).toFinset ∩ (tokenSet t).toFinset := by
    ext x
    simp [List.mem_filter]
  have h1 : ((tokenSet q).filter (fun w => decide (w ∈ tokenSet t))).length
      = ((tokenSet q).toFinset ∩ (tokenSet t).toFinset).card := by
    rw [← hset, List.card_toFinset, List.Nodup.dedup (hq.filter _)]
  have h2 : (tokenSet q).toFinset.card = (tokenSet q).length := by
    rw [List.card_toFinset, List.Nodup.dedup hq]
  rw [h1, h2]

theorem relevance_nonneg (q t : String) : 0 ≤ calculate_text_relevance q t := by
  unfold calculate_text_relevance
  dsimp only
  positivity

theorem relevance_le_one (q t : String) : calculate_text_relevance q t ≤ 1 := by
  unfold calculate_text_relevance
  dsimp only
  rw [div_le_one (by positivity)]
  have h : ((tokenSet q).filter (fun w => decide (w ∈ tokenSet t))).length ≤
      max (tokenSet q).length 1 :=
    le_trans (List.length_filter_le _ _) (le_max_left _ _)
  exact_mod_cast h

theorem relevance_empty_text (q : String) :
    calculate_text_relevance q "" = 0 := by
  unfold calculate_text_relevance
  dsimp only
  have h : tokenSet "" = [] := by decide
  simp [h]

theorem relevance_self (q : String) (hne : pySplitWs (pyLower q) ≠ []) :
    calculate_text_relevance q q = 1 := by
  unfold calculate_text_relevance
  dsimp only
  have hfull :
      (tokenSet q).filter (fun w => decide (w ∈ tokenSet q)) = tokenSet q := by
    apply List.filter_eq_self.mpr
    intro a ha
    simpa using ha
  rw [hfull]
  have hpos : 0 < (tokenSet q).length :=
    List.length_pos.mpr (by simpa [tokenSet, List.dedup_eq_nil] using hne)
  rw [Nat.max_eq_left hpos]
  rw [div_self (by exact_mod_cast hpos.ne')]

/-- Folding a function that fixes the state on non-kept elements visits only
the kept elements. -/
theorem foldl_filter_skip {α β : Type} (f : β → α → β) (keep : α → Bool)
    (h : ∀ b a, keep a = false → f b a = b) :
    ∀ (l : List α) (b : β), l.foldl f b = (l.filter keep).foldl f b := by
  intro l
  induction l with
  | nil => intro b; rfl
  | cons a l ih =>
    intro b
    cases hk : keep a with
    | false => simp [List.filter_cons, hk, h b a hk, ih b]
    | true => simp [List.filter_cons, hk, ih (f b a)]

/-- Folding preserves any invariant preserved by each step. -/
theorem foldl_preserve {α β : Type} (P : β → Prop) (f : β → α → β)
    (hf : ∀ b a, P b → P (f b a)) :
    ∀ (l : List α) (b : β), P b → P (l.foldl f b) := by
  intro l
  induction l with
  | nil => intro b hb; exact hb
  | cons a l ih => intro b hb; exact ih (f b a) (hf b a hb)

/-- `dictInsert` keeps the key list unchanged when the key is present and
appends the key otherwise. -/
theorem dictInsert_keys {α : Type} (c : List (String × α)) (k : String)
    (v : α) :
    (dictInsert c k v).map Prod.fst =
      if c.any (fun p => p.1 = k) then c.map Prod.fst
      else c.map Prod.fst ++ [k] := by
  unfold dictInsert
  split_ifs with h
  · rw [List.map_map]
    apply List.map_congr_left
    intro p _
    by_cases hp : p.1 = k
    · simp [hp]
    · simp [hp]
  · simp

/-- `dictInsert` preserves key uniqueness. -/
theorem dictInsert_keys_nodup {α : Type} (c : List (String × α)) (k : String)
    (v : α) (h : (c.map Prod.fst).Nodup) :
    ((dictInsert c k v).map Prod.fst).Nodup := by
  rw [dictInsert_keys]
  split_ifs with hany
  · exact h
  · rw [List.nodup_append]
    refine ⟨h, List.nodup_singleton k, ?_⟩
    intro x hx hxk
    simp only [List.mem_singleton] at hxk
    simp only [List.mem_map] at hx
    obtain ⟨p, hp, hpx⟩ := hx
    simp only [List.any_eq_true, decide_eq_true_eq, not_exists, not_and]
      at hany
    exact hany p hp (by rw [hpx, hxk])

/-- `dictInsert` commutes with a non-matching head entry. -/
theorem dictInsert_cons_ne {α : Type} (p : String × α) (c : List (String × α))
    (k : String) (v : α) (hp : p.1 ≠ k) :
    dictInsert (p :: c) k v = p :: dictInsert c k v := by
  by_cases h : c.any (fun q => q.1 = k)
  · unfold dictInsert
    simp [List.any_cons, hp, h]
  · unfold dictInsert
    simp [List.any_cons, hp, h]

/-- After `dictInsert` on a duplicate-free cache, the entries stored under
the inserted key are exactly the one inserted value. -/
theorem dictInsert_filter {α : Type} (k : String) (v : α) :
    ∀ (c : List (String × α)), (c.map Prod.fst).Nodup →
      ((dictInsert c k v).filter (fun p => p.1 = k)).map Prod.snd = [v] := by
  intro c
  induction c with
  | nil =>
    intro _
    simp [dictInsert]
  | cons p c ih =>
    intro hnd
    simp only [List.map_cons, List.nodup_cons] at hnd
    obtain ⟨hpk, hnd⟩ := hnd
    by_cases hp : p.1 = k
    · have hnotin : ∀ q ∈ c, q.1 ≠ k := by
        intro q hq hqk
        exact hpk (by
          rw [hp, ← hqk]
          exact List.mem_map_of_mem Prod.fst hq)
      have hany : ((p :: c).any fun q => decide (q.1 = k)) = true := by
        simp [hp]
      have hmap : c.map (fun q => if q.1 = k then (k, v) else q) = c := by
        conv_rhs => rw [← List.map_id c]
        apply List.map_congr_left
        intro q hq
        simp [hnotin q hq]
      have hfil : c.filter (fun q => decide (q.1 = k)) = [] := by
        apply List.filter_eq_nil_iff.mpr
        intro q hq
        simp [hnotin q hq]
      unfold dictInsert
      rw [if_pos hany]
      simp [List.filter_cons, hp, hmap, hfil]
    · rw [dictInsert_cons_ne p c k v hp]
      simp only [List.filter_cons, decide_eq_true_eq, hp, if_false]
      exact ih hnd

/-- A filter with a singleton result determines `find?`. -/
theorem find?_of_filter_singleton {α : Type} (p : α → Bool) (x : α) :
    ∀ (l : List α), l.filter p = [x] → l.find? p = some x := by
  intro l
  induction l with
  | nil => intro h; simp at h
  | cons a l ih =>
    intro h
    cases hp : p a with
    | false =>
      simp only [List.filter_cons, hp, if_false] at h
      simp only [List.find?_cons, hp]
      exact ih h
    | true =>
      simp only [List.filter_cons, hp, if_true] at h
      simp only [List.find?_cons, hp]
      simp only [List.cons.injEq] at h
      rw [h.1]

/-- A guarded `filterMap` is a `filter` followed by a `map`. -/
theorem filterMap_guard {α β : Type} (P : α → Prop) [DecidablePred P]
    (f : α → β) :
    ∀ l : List α,
      (l.filterMap (fun a => if P a then some (f a) else none)) =
        (l.filter (fun a => decide (P a))).map f := by
  intro l
  induction l with
  | nil => rfl
  | cons a l ih =>
    by_cases h : P a
    · simp [List.filterMap_cons, List.filter_cons, h, ih]
    · simp [List.filterMap_cons, List.filter_cons, h, ih]

/-- A cached analysis whose description shares exactly 3 of the 10 query
tokens of `"a b c d e f g h i j"` — relevance exactly 0.3. -/
def chartAtBoundary : ChartAnalysis :=
  { chart_type := "bar_chart", data_insights := emptyInsights,
    text_content := "a b c", confidence := 1, queryable_facts := [],
    image_id := none }

/-- A cached analysis sharing 4 of the 10 query tokens — relevance 0.4. -/
def chartAboveBoundary : ChartAnalysis :=
  { chart_type := "bar_chart", data_insights := emptyInsights,
    text_content := "a b c d", confidence := 1, queryable_facts := [],
    image_id := none }

/-- A cached link whose joined snippets are `"a b c"` — relevance exactly
0.3 against the 10-token query. -/
def linkAtBoundary : VisualTextLink :=
  { visual_id := "v1", text_chunks := ["a b", "c"],
    relationship := "illustration", confidence := 1 }

theorem boundary_relevance_three_tenths :
    calculate_text_relevance "a b c d e f g h i j" "a b c" = 3/10 := by
  unfold calculate_text_relevance
  dsimp only
  rw [show ((tokenSet "a b c d e f g h i j").filter
      (fun w => decide (w ∈ tokenSet "a b c"))).length = 3 from by decide]
  rw [show (tokenSet "a b c d e f g h i j").length = 10 from by decide]
  norm_num

theorem boundary_relevance_two_fifths :
    calculate_text_relevance "a b c d e f g h i j" "a b c d" = 2/5 := by
  unfold calculate_text_relevance
  dsimp only
  rw [show ((tokenSet "a b c d e f g h i j").filter
      (fun w => decide (w ∈ tokenSet "a b c d"))).length = 4 from by decide]
  rw [show (tokenSet "a b c d e f g h i j").length = 10 from by decide]
  norm_num

/-! ## Claims -/

/-- C3 (counterexample): the claim "relevance(q, q) == 1 whenever q has no
duplicate or empty tokens" fails at the concrete input `q = ""`: the empty
query has no tokens at all — so in particular no duplicate and no empty
token — yet `relevance("", "") = 0 ≠ 1` (the score divides by
`max(|queryTokens|, 1) = 1` with an empty intersection). -/
theorem C3_counterexample :
    (pySplitWs (pyLower "")).Nodup ∧
    (∀ s ∈ pySplitWs (pyLower ""), s ≠ "") ∧
    calculate_text_relevance "" "" ≠ 1 := by
  refine ⟨by decide, by decide, ?_⟩
  rw [relevance_empty_text ""]
  norm_num

/-- C3 (amended): `relevance(query, text)` equals the number of distinct
shared lower-cased whitespace-split tokens divided by `max(|queryTokens|, 1)`;
it always lies in `[0, 1]`; `relevance(q, "") = 0` for every `q`; and
`relevance(q, q) = 1` whenever `q` has **at least one token** and no
duplicate or empty tokens.  (The body of `_calculate_text_relevance` is total
on every string input, so its `except: return 0.0` clause never fires and the
function indeed never raises.) -/
theorem C3_relevance_properties :
    (∀ q t, calculate_text_relevance q t =
      (((tokenSet q).toFinset ∩ (tokenSet t).toFinset).card : ℚ) /
        ((max (tokenSet q).toFinset.card 1 : ℕ) : ℚ)) ∧
    (∀ q t, 0 ≤ calculate_text_relevance q t ∧
      calculate_text_relevance q t ≤ 1) ∧
    (∀ q, calculate_text_relevance q "" = 0) ∧
    (∀ q, (pySplitWs (pyLower q)).Nodup →
      (∀ s ∈ pySplitWs (pyLower q), s ≠ "") →
      pySplitWs (pyLower q) ≠ [] →
      calculate_text_relevance q q = 1) := by
  refine ⟨relevance_eq_inter_card,
    fun q t => ⟨relevance_nonneg q t, relevance_le_one q t⟩,
    relevance_empty_text,
    fun q _ _ hne => relevance_self q hne⟩

/-- C3 (witness): the amended theorem applied at the concrete query
`"hello world"`, whose token list is duplicate-free, empty-token-free and
nonempty. -/
theorem C3_relevance_properties_witness :
    ((pySplitWs (pyLower "hello world")).Nodup ∧
     (∀ s ∈ pySplitWs (pyLower "hello world"), s ≠ "") ∧
     pySplitWs (pyLower "hello world") ≠ []) ∧
    calculate_text_relevance "hello world" "hello world" = 1 :=
  ⟨⟨by decide, by decide, by decide⟩,
   C3_relevance_properties.2.2.2 "hello world" (by decide) (by decide)
     (by decide)⟩

/-- C6 (confirmed): `_extract_queryable_facts` emits fact groups in exactly
the source order — chart-type fact, title fact (when a truthy title is
present), the first 10 data points rendered `"{category}: {value}"` (points
missing either key are skipped but still occupy one of the 10 slots), one
`"Trend: ..."` fact per trend string, then highest/lowest/average statistics
facts, then the insight strings verbatim; and for the concrete chart with
data points Q1↦10, Q2↦20 and no trends/statistics/insights the facts are
exactly `["This is a {type}", "Q1: 10", "Q2: 20"]`. -/
theorem C6_fact_extraction_order :
    (∀ m d txt, extract_queryable_facts m d txt =
      (match m.type? with
       | some t => if t = "" then [] else ["This is a " ++ t]
       | none => []) ++
      (match m.title? with
       | some t => if t = "" then [] else ["Chart title: " ++ t]
       | none => []) ++
      (d.data_points.take 10).filterMap pointFact ++
      d.trends.map (fun t => "Trend: " ++ t) ++
      statFacts d.key_statistics ++
      d.insights) ∧
    (∀ ty, ty ≠ "" →
      extract_queryable_facts
        { type? := some ty, title? := none, confidence? := none,
          raw_response? := none }
        { data_points :=
            [{ category := some "Q1", value := some "10", series := none },
             { category := some "Q2", value := some "20", series := none }],
          trends := [], key_statistics := none, insights := [],
          raw_analysis := none }
        "" = ["This is a " ++ ty, "Q1: 10", "Q2: 20"]) := by
  constructor
  · intro m d txt
    unfold extract_queryable_facts
    dsimp only
    have hdp : ∀ (fs : List String) (dp : List DataPoint),
        (if dp.isEmpty then fs else fs ++ (dp.take 10).filterMap pointFact) =
          fs ++ (dp.take 10).filterMap pointFact := by
      intro fs dp
      cases dp <;> simp
    have htr : ∀ (fs tr : List String),
        (if tr.isEmpty then fs else fs ++ tr.map (fun t => "Trend: " ++ t)) =
          fs ++ tr.map (fun t => "Trend: " ++ t) := by
      intro fs tr
      cases tr <;> simp
    have hin : ∀ (fs ins : List String),
        (if ins.isEmpty then fs else fs ++ ins) = fs ++ ins := by
      intro fs ins
      cases ins <;> simp
    rw [hdp, htr, hin]
    cases m.type? <;> cases m.title? <;> simp only [] <;>
      first
      | (split_ifs <;> simp)
      | simp
  · intro ty hty
    unfold extract_queryable_facts
    simp [hty, statFacts, pointFact]

/-- C6 (witness): the concrete clause applied at chart type `"bar_chart"`. -/
theorem C6_fact_extraction_order_witness :
    ("bar_chart" ≠ "") ∧
    extract_queryable_facts
      { type? := some "bar_chart", title? := none, confidence? := none,
        raw_response? := none }
      { data_points :=
          [{ category := some "Q1", value := some "10", series := none },
           { category := some "Q2", value := some "20", series := none }],
        trends := [], key_statistics := none, insights := [],
        raw_analysis := none }
      "" = ["This is a bar_chart", "Q1: 10", "Q2: 20"] :=
  ⟨by decide, C6_fact_extraction_order.2 "bar_chart" (by decide)⟩

/-- C7 (confirmed): the candidate text chunks for an image are exactly those
whose page number differs from the image's page by at most 1 — for an image
on page 5 and chunks on pages 3, 4, 6, 7 only the page-4 and page-6 chunks
are selected — and an image with no candidate chunks contributes nothing:
`create_visual_text_links` computes the same links and the same final cache
as if skipped images were not in the input at all (no link emitted, no cache
write). -/
theorem C7_candidate_window_and_skip :
    (related_chunks_for
      { id := "img", document_id := "doc", page_number := 5,
        image_type := "chart", description := none, image_url := none }
      [{ id := "c3", document_id := "doc", content := "t3", page_number := 3 },
       { id := "c4", document_id := "doc", content := "t4", page_number := 4 },
       { id := "c6", document_id := "doc", content := "t6", page_number := 6 },
       { id := "c7", document_id := "doc", content := "t7", page_number := 7 }]
      =
      [{ id := "c4", document_id := "doc", content := "t4", page_number := 4 },
       { id := "c6", document_id := "doc", content := "t6", page_number := 6 }])
    ∧
    (∀ (relFn : DocumentImage → List DocumentChunk → List RelRecord)
      (images : List DocumentImage) (chunks : List DocumentChunk)
      (cache : List (String × VisualTextLink)),
      create_visual_text_links relFn images chunks cache =
        create_visual_text_links relFn
          (images.filter (fun im => !(related_chunks_for im chunks).isEmpty))
          chunks cache) := by
  constructor
  · decide
  · intro relFn images chunks cache
    unfold create_visual_text_links
    apply foldl_filter_skip
    intro b a hk
    simp only [Bool.not_eq_false'] at hk
    simp [hk]

/-- C8 (confirmed): the link cache holds at most one entry per `visualId`:
`dictInsert` (Python `self.visual_text_links[image.id] = link`) preserves key
uniqueness, inserting twice under one key leaves exactly the second value
stored under that key (and it is what lookup returns), and every cache
produced by `create_visual_text_links` from a duplicate-free cache is again
duplicate-free. -/
theorem C8_one_link_per_visual_id :
    ∀ (cache : List (String × VisualTextLink)) (k : String)
      (v1 v2 : VisualTextLink),
      (cache.map Prod.fst).Nodup →
      (((dictInsert (dictInsert cache k v1) k v2).filter
          (fun p => p.1 = k)).map Prod.snd = [v2] ∧
       dictGet (dictInsert (dictInsert cache k v1) k v2) k = some v2 ∧
       ((dictInsert (dictInsert cache k v1) k v2).map Prod.fst).Nodup ∧
       (∀ (relFn : DocumentImage → List DocumentChunk → List RelRecord)
          (images : List DocumentImage) (chunks : List DocumentChunk),
          (((create_visual_text_links relFn images chunks cache).2.map
            Prod.fst).Nodup))) := by
  intro cache k v1 v2 hnd
  have hnd1 : ((dictInsert cache k v1).map Prod.fst).Nodup :=
    dictInsert_keys_nodup cache k v1 hnd
  have hfil := dictInsert_filter k v2 (dictInsert cache k v1) hnd1
  refine ⟨hfil, ?_, dictInsert_keys_nodup _ k v2 hnd1, ?_⟩
  · unfold dictGet
    have hfind := find?_of_filter_singleton
      (fun p : String × VisualTextLink => decide (p.1 = k)) (k, v2)
    have hone : (dictInsert (dictInsert cache k v1) k v2).filter
        (fun p => decide (p.1 = k)) = [(k, v2)] := by
      have hkey : ∀ q ∈ (dictInsert (dictInsert cache k v1) k v2).filter
          (fun p => decide (p.1 = k)), q.1 = k := by
        intro q hq
        have := List.of_mem_filter hq
        simpa using this
      rcases hq : (dictInsert (dictInsert cache k v1) k v2).filter
          (fun p => decide (p.1 = k)) with _ | ⟨q, rest⟩
      · rw [hq] at hfil
        simp at hfil
      · rw [hq] at hfil
        rcases rest with _ | ⟨q2, rest2⟩
        · simp only [List.map_cons, List.map_nil, List.cons.injEq] at hfil
          have hq1 : q.1 = k := hkey q (by rw [hq]; exact List.mem_cons_self q _)
          cases q with
          | mk a b =>
            simp only at hq1 hfil
            rw [hq, hq1, hfil.1]
        · simp at hfil
    rw [hfind _ hone]
    rfl
  · intro relFn images chunks
    unfold create_visual_text_links
    refine foldl_preserve
      (fun st : List VisualTextLink × List (String × VisualTextLink) =>
        (st.2.map Prod.fst).Nodup) _ ?_ images ([], cache) hnd
    intro st image hst
    dsimp only
    split_ifs with h
    · exact hst
    · refine foldl_preserve
        (fun st : List VisualTextLink × List (String × VisualTextLink) =>
          (st.2.map Prod.fst).Nodup) _ ?_ _ st hst
      intro b r hb
      exact dictInsert_keys_nodup _ _ _ hb

/-- C8 (witness): inserting two links for image id `"img1"` into the empty
cache leaves exactly the second link stored under `"img1"`. -/
theorem C8_one_link_per_visual_id_witness :
    (([] : List (String × VisualTextLink)).map Prod.fst).Nodup ∧
    ((dictInsert (dictInsert ([] : List (String × VisualTextLink)) "img1"
        { visual_id := "img1", text_chunks := ["a"],
          relationship := "illustration", confidence := 1 }) "img1"
        { visual_id := "img1", text_chunks := ["b"],
          relationship := "example", confidence := 0 }).filter
      (fun p => p.1 = "img1")).map Prod.snd =
      [{ visual_id := "img1", text_chunks := ["b"],
         relationship := "example", confidence := 0 }] :=
  ⟨by decide,
   (C8_one_link_per_visual_id []
     "img1"
     { visual_id := "img1", text_chunks := ["a"],
       relationship := "illustration", confidence := 1 }
     { visual_id := "img1", text_chunks := ["b"],
       relationship := "example", confidence := 0 }
     (by decide)).1⟩

/-- C9 (confirmed): the per-document link listing of
`get_visual_text_links` (`backend/main.py`) returns exactly the cached links
whose `visual_id` contains the document id as a substring, each rendered with
its `visual_id`, `relationship`, `confidence` and first 3 text snippets; the
lookup is substring containment, not exact match — the concrete clause shows
a link with `visual_id = "doc1_img2"` returned for document id `"doc1"` even
though the two ids differ. -/
theorem C9_link_listing_substring :
    (∀ (cache : List (String × VisualTextLink)) (docId : String)
      (view : LinkView),
      view ∈ get_visual_text_links cache docId ↔
      ∃ link ∈ dictValues cache,
        docId.toList <:+: link.visual_id.toList ∧ view = renderLink link) ∧
    (get_visual_text_links
      [("doc1_img2",
        { visual_id := "doc1_img2", text_chunks := ["s1", "s2", "s3", "s4"],
          relationship := "illustration", confidence := 1 })] "doc1" =
      [{ visual_id := "doc1_img2", relationship := "illustration",
         confidence := 1, text_snippets := ["s1", "s2", "s3"] }]) ∧
    ("doc1" : String) ≠ "doc1_img2" := by
  refine ⟨?_, by decide, by decide⟩
  intro cache docId view
  unfold get_visual_text_links
  simp only [List.mem_map, List.mem_filter, decide_eq_true_eq]
  constructor
  · rintro ⟨link, ⟨hmem, hsub⟩, rfl⟩
    exact ⟨link, hmem, hsub, rfl⟩
  · rintro ⟨link, hmem, hsub, rfl⟩
    exact ⟨link, ⟨hmem, hsub⟩, rfl⟩

/-- C5 (confirmed): the chart-cache search emits one candidate per cached
analysis exactly when `relevance(query, textContent) > 0.3` (strict), scored
`relevance × analysis.confidence`; the link-cache search emits one candidate
per cached link exactly when the relevance against the space-joined snippets
exceeds 0.3 (strict), scored `relevance × link.confidence`; a candidate at
relevance exactly 0.3 is excluded (shown concretely for both caches), one
above is included. -/
theorem C5_cache_search_threshold :
    (∀ (query : String) (cache : List (String × ChartAnalysis)),
      search_chart_analyses query cache =
        (cache.filter (fun p =>
          decide ((3/10 : ℚ) <
            calculate_text_relevance query p.2.text_content))).map
          (fun p => mkChartResult p.1 p.2
            (calculate_text_relevance query p.2.text_content))) ∧
    (∀ cid a r, (mkChartResult cid a r).confidence_score = r * a.confidence) ∧
    (∀ (query : String) (cache : List (String × VisualTextLink)),
      search_visual_text_links query cache =
        (cache.filter (fun p =>
          decide ((3/10 : ℚ) < calculate_text_relevance query
            (pyJoin " " p.2.text_chunks)))).map
          (fun p => mkLinkResult p.1 p.2
            (calculate_text_relevance query (pyJoin " " p.2.text_chunks))
            (pyJoin " " p.2.text_chunks))) ∧
    (∀ vid l r ct,
      (mkLinkResult vid l r ct).confidence_score = r * l.confidence) ∧
    (calculate_text_relevance "a b c d e f g h i j" "a b c" = 3/10 ∧
      search_chart_analyses "a b c d e f g h i j" [("c1", chartAtBoundary)]
        = [] ∧
      search_visual_text_links "a b c d e f g h i j" [("v1", linkAtBoundary)]
        = []) ∧
    (calculate_text_relevance "a b c d e f g h i j" "a b c d" = 2/5 ∧
      search_chart_analyses "a b c d e f g h i j" [("c2", chartAboveBoundary)]
        = [mkChartResult "c2" chartAboveBoundary (2/5)]) := by
  refine ⟨?_, fun cid a r => rfl, ?_, fun vid l r ct => rfl, ?_, ?_⟩
  · intro query cache
    exact filterMap_guard
      (fun p : String × ChartAnalysis =>
        (3/10 : ℚ) < calculate_text_relevance query p.2.text_content)
      (fun p => mkChartResult p.1 p.2
        (calculate_text_relevance query p.2.text_content)) cache
  · intro query cache
    exact filterMap_guard
      (fun p : String × VisualTextLink =>
        (3/10 : ℚ) < calculate_text_relevance query
          (pyJoin " " p.2.text_chunks))
      (fun p => mkLinkResult p.1 p.2
        (calculate_text_relevance query (pyJoin " " p.2.text_chunks))
        (pyJoin " " p.2.text_chunks)) cache
  · refine ⟨boundary_relevance_three_tenths, ?_, ?_⟩
    · simp only [search_chart_analyses, List.filterMap_cons,
        List.filterMap_nil]
      rw [show chartAtBoundary.text_content = "a b c" from rfl]
      rw [boundary_relevance_three_tenths]
      norm_num
    · simp only [search_visual_text_links, List.filterMap_cons,
        List.filterMap_nil]
      rw [show pyJoin " " linkAtBoundary.text_chunks = "a b c" from rfl]
      rw [boundary_relevance_three_tenths]
      norm_num
  · refine ⟨boundary_relevance_two_fifths, ?_⟩
    simp only [search_chart_analyses, List.filterMap_cons,
      List.filterMap_nil]
    rw [show chartAboveBoundary.text_content = "a b c d" from rfl]
    rw [boundary_relevance_two_fifths]
    rw [if_pos (by norm_num : (3/10 : ℚ) < 2/5)]

/-- The ranking comparison is transitive. -/
theorem rankLe_trans : ∀ a b c : SearchResult,
    rankLe a b → rankLe b c → rankLe a c := by
  intro a b c hab hbc
  simp only [rankLe, decide_eq_true_eq] at hab hbc ⊢
  exact le_trans hbc hab

/-- The ranking comparison is total. -/
theorem rankLe_total : ∀ a b : SearchResult, rankLe a b || rankLe b a := by
  intro a b
  rcases le_total b.confidence_score a.confidence_score with h | h
  · simp [rankLe, h]
  · simp [rankLe, h]

/-- A cached analysis with confidence 0.6, as in the spec's worked example. -/
def demoChartAnalysis : ChartAnalysis :=
  { chart_type := "bar_chart", data_insights := emptyInsights,
    text_content := "sales by quarter", confidence := 3/5,
    queryable_facts := [], image_id := none }

/-- A plain text result used to witness tie stability: no bonus metadata,
confidence 0.5. -/
def demoTextResult : SearchResult :=
  { id := "t0", title := "doc", content := "text", source_type := "document",
    url := none, confidence_score := 1/2, metadata := emptyMeta }

/-- C4 (confirmed): the ranking stage multiplies each candidate's
`confidenceScore` by 1.2 / 1.3 / 1.1 according to which of
`visual_enhancements` / `chart_type` / `relationship` metadata it carries
(independent, stacking bonuses), clamps to at most 1.0, and stably sorts the
candidates descending by final score (the scored list is a permutation of
the output, the output is pairwise descending, and any pair in scored order
with non-increasing scores — in particular ties — keeps its relative order);
a chart candidate with base relevance 0.5 and analysis confidence 0.6 ends
at `min(0.5*0.6*1.3, 1.0) = 0.39`. -/
theorem C4_ranking_policy :
    (∀ r, (apply_bonus r).confidence_score =
      min (r.confidence_score *
        (if r.metadata.visual_enhancements.isSome then (12/10 : ℚ) else 1) *
        (if r.metadata.chart_type.isSome then (13/10 : ℚ) else 1) *
        (if r.metadata.relationship.isSome then (11/10 : ℚ) else 1)) 1 ∧
      (apply_bonus r).confidence_score ≤ 1) ∧
    (∀ results, (rank_multimodal_results results).Perm
      (results.map apply_bonus)) ∧
    (∀ results, (rank_multimodal_results results).Pairwise
      (fun a b => b.confidence_score ≤ a.confidence_score)) ∧
    (∀ (results : List SearchResult) (a b : SearchResult),
      List.Sublist [a, b] (results.map apply_bonus) →
      b.confidence_score ≤ a.confidence_score →
      List.Sublist [a, b] (rank_multimodal_results results)) ∧
    ((apply_bonus
        (mkChartResult "c0" demoChartAnalysis (1/2))).confidence_score
      = 39/100) := by
  refine ⟨?_, fun results => List.mergeSort_perm _ _, ?_, ?_, ?_⟩
  · intro r
    constructor
    · unfold apply_bonus
      dsimp only
      split_ifs <;> first
        | rfl
        | (congr 1; ring)
    · exact min_le_right _ _
  · intro results
    have h := List.sorted_mergeSort rankLe_trans rankLe_total
      (results.map apply_bonus)
    exact h.imp (fun hab => by simpa [rankLe] using hab)
  · intro results a b hsub hle
    exact List.pair_sublist_mergeSort rankLe_trans rankLe_total
      (by simpa [rankLe] using hle) hsub
  · unfold apply_bonus mkChartResult demoChartAnalysis emptyMeta
    norm_num

/-- C4 (witness): the stability clause applied to the concrete two-element
candidate list `[demoTextResult, demoTextResult]` (a tie — both score 0.5),
whose scored pair therefore stays in order in the ranked output; the other
clauses instantiated alongside. -/
theorem C4_ranking_policy_witness :
    (List.Sublist [apply_bonus demoTextResult, apply_bonus demoTextResult]
      ([demoTextResult, demoTextResult].map apply_bonus)) ∧
    ((apply_bonus demoTextResult).confidence_score ≤
      (apply_bonus demoTextResult).confidence_score) ∧
    (List.Sublist [apply_bonus demoTextResult, apply_bonus demoTextResult]
      (rank_multimodal_results [demoTextResult, demoTextResult])) :=
  ⟨List.Sublist.refl _, le_refl _,
   C4_ranking_policy.2.2.2.1 [demoTextResult, demoTextResult]
     (apply_bonus demoTextResult) (apply_bonus demoTextResult)
     (List.Sublist.refl _) (le_refl _)⟩

/-- What the failure fallback of `multi_modal_search` preserves of each
original text result: identity fields and score untouched, content only ever
extended (the enhancement stage appends in place, never rewrites). -/
def enhPreserves (orig o : SearchResult) : Prop :=
  o.id = orig.id ∧ o.title = orig.title ∧
  o.source_type = orig.source_type ∧ o.url = orig.url ∧
  o.confidence_score = orig.confidence_score ∧
  ∃ t, o.content = orig.content ++ t

/-- Enhancement preserves everything but the (extended) content and the
`visual_enhancements` metadata key. -/
theorem enhance_preserves (chart_cache : List (String × ChartAnalysis))
    (image_results : List DocumentImage) (x : SearchResult) :
    enhPreserves x
      (enhance_text_with_visual_context chart_cache image_results x) := by
  unfold enhance_text_with_visual_context enhPreserves
  dsimp only
  split_ifs
  · exact ⟨rfl, rfl, rfl, rfl, rfl, "", by simp⟩
  · exact ⟨rfl, rfl, rfl, rfl, rfl, "", by simp⟩
  · exact ⟨rfl, rfl, rfl, rfl, rfl, _, String.append_assoc _ _ _⟩

/-- An image adjacent to `demoEnhanceable` with a truthy description, so the
enhancement stage mutates the result before any later failure. -/
def demoImage : DocumentImage :=
  { id := "i1", document_id := "d1", page_number := 1,
    image_type := "figure", description := some "a chart", image_url := none }

/-- Metadata placing a text result on page 1 of document `"d1"`. -/
def demoMeta : RMeta :=
  { document_id := some "d1", page_number := some 1,
    visual_enhancements := none, chart_type := none, data_insights := none,
    queryable_facts := none, visual_id := none, relationship := none,
    link_confidence := none }

/-- A text result that the enhancement stage will extend in place. -/
def demoEnhanceable : SearchResult :=
  { id := "t1", title := "Doc", content := "sales",
    source_type := "document", url := none, confidence_score := 1,
    metadata := demoMeta }

/-- C2 (counterexample): the claim "on total failure `multiModalSearch`
returns the original `textResults` list unmodified — same elements with
unchanged fields" fails at a concrete input: with one text result on the
same page as a described image, the enhancement loop has already appended a
"Visual Context" section to the result's content (Python mutates the
`SearchResult` objects in place) before the failing operation, so the
fallback `return text_results` yields a list whose element differs from the
original. -/
theorem C2_counterexample :
    multi_modal_search "q" [] [] [demoImage] [demoEnhanceable]
      (.failAfter 1) ≠ [demoEnhanceable] := by
  decide

/-- C2 (amended): on total failure `multi_modal_search` returns the original
`textResults` list object — same length, same order, and elementwise the
same `id`, `title`, `sourceType` and `url`; an element's `content` may
already have been extended in place by the completed part of the enhancement
loop (the original content survives as a prefix).  Its `confidenceScore` is
unchanged when the failure strikes before the ranking stage (`failAfter k`),
but when the failure strikes after `_rank_multimodal_results` returned
(at the final logging statement), every element's `confidenceScore` has
already been rescaled in place to the ranking stage's
`min(score × bonuses, 1.0) ≤ 1`.  The result set is never smaller than what
the caller passed in. -/
theorem C2_failure_fallback :
    ∀ (query : String) (chart_cache : List (String × ChartAnalysis))
      (link_cache : List (String × VisualTextLink))
      (image_results : List DocumentImage)
      (text_results : List SearchResult),
      (∀ k : ℕ,
        (multi_modal_search query chart_cache link_cache image_results
          text_results (.failAfter k)).length = text_results.length ∧
        List.Forall₂ enhPreserves text_results
          (multi_modal_search query chart_cache link_cache image_results
            text_results (.failAfter k))) ∧
      ((multi_modal_search query chart_cache link_cache image_results
          text_results .failAfterRanking).length = text_results.length ∧
        List.Forall₂ (fun orig o =>
          o.id = orig.id ∧ o.title = orig.title ∧
          o.source_type = orig.source_type ∧ o.url = orig.url ∧
          (∃ t, o.content = orig.content ++ t) ∧
          o.confidence_score = (apply_bonus
            (enhance_text_with_visual_context chart_cache image_results
              orig)).confidence_score ∧
          o.confidence_score ≤ 1)
          text_results
          (multi_modal_search query chart_cache link_cache image_results
            text_results .failAfterRanking)) := by
  intro query chart_cache link_cache image_results text_results
  constructor
  · intro k
    unfold multi_modal_search
    constructor
    · simp only [List.length_append, List.length_map, List.length_take,
        List.length_drop]
      omega
    · conv_lhs => rw [← List.take_append_drop k text_results]
      apply List.rel_append
      · rw [List.forall₂_map_right_iff]
        apply List.forall₂_same.mpr
        intro x _
        exact enhance_preserves chart_cache image_results x
      · apply List.forall₂_same.mpr
        intro x _
        exact ⟨rfl, rfl, rfl, rfl, rfl, "", by simp⟩
  · unfold multi_modal_search
    constructor
    · simp only [List.length_map]
    · rw [List.forall₂_map_right_iff]
      apply List.forall₂_same.mpr
      intro x _
      obtain ⟨h1, h2, h3, h4, _h5, t, ht⟩ :=
        enhance_preserves chart_cache image_results x
      exact ⟨h1, h2, h3, h4, ⟨t, ht⟩, rfl, min_le_right _ _⟩

/-- The environment of an `analyze_chart_to_text` run in which every
capability call raises (and is caught at its call site, yielding the sentinel
`"Analysis failed"`, which `json.loads` rejects — modelled by the constant
`none` parse oracle), while no stage body or outer body raises. -/
def capFailEnv : AnalyzeEnv :=
  { available := true,
    s1 := { call := .raised, parse := fun _ => none, raises := false },
    s2 := { call := .raised, parse := fun _ => none, raises := false },
    s3 := { call := .raised, raises := false },
    context := "", outerRaises := false }

/-- C1 (counterexample): the claim that a capability-call failure yields
`chartType = "unknown"` and `confidence = 0.0` (and that any internal
failure yields the default `ChartAnalysis("unknown", {}, "Chart analysis
failed", 0.0)`) fails at the concrete run in which the capability call
raises: the call-site handler converts the exception into the sentinel reply
`"Analysis failed"`, the JSON parse of that sentinel fails, and stage 1's
parse-failure fallback `{type: "chart", confidence: 0.3}` flows through — so
the returned analysis has `chartType = "chart"` and `confidence = 0.3`, not
the claimed default. -/
theorem C1_counterexample :
    (analyze_chart_to_text capFailEnv).chart_type = "chart" ∧
    (analyze_chart_to_text capFailEnv).chart_type ≠ "unknown" ∧
    (analyze_chart_to_text capFailEnv).confidence = 3/10 ∧
    analyze_chart_to_text capFailEnv ≠ failedAnalysis := by
  refine ⟨rfl, by decide, rfl, ?_⟩
  intro h
  have h2 := congrArg ChartAnalysis.chart_type h
  rw [show (analyze_chart_to_text capFailEnv).chart_type = "chart" from rfl]
    at h2
  exact absurd h2 (by decide)

/-- C1 (amended): `analyze_chart_to_text` is total (the embedding returns a
`ChartAnalysis` for every oracle environment, so nothing propagates to the
caller) and degrades as follows: an exception reaching its own body yields
the default `ChartAnalysis("unknown", {}, "Chart analysis failed", 0.0)`; a
capability-call failure (caught at the call site as the sentinel reply,
which no parse accepts) yields `chartType = "chart"`, `confidence = 0.3`
via the stage-1 parse fallback; `chartType = "unknown"` with
`confidence = 0.0` arises when no capability client is configured, or when
the stage-1 body itself raises into its own handler. -/
theorem C1_degradation :
    (∀ env : AnalyzeEnv, env.outerRaises = true →
      analyze_chart_to_text env = failedAnalysis) ∧
    (∀ env : AnalyzeEnv, env.outerRaises = false → env.available = true →
      env.s1.raises = false → env.s1.call = .raised →
      env.s1.parse "Analysis failed" = none →
      ((analyze_chart_to_text env).chart_type = "chart" ∧
       (analyze_chart_to_text env).confidence = 3/10)) ∧
    (∀ env : AnalyzeEnv, env.outerRaises = false → env.available = false →
      env.s1.raises = false →
      ((analyze_chart_to_text env).chart_type = "unknown" ∧
       (analyze_chart_to_text env).confidence = 0)) ∧
    (∀ env : AnalyzeEnv, env.outerRaises = false → env.s1.raises = true →
      ((analyze_chart_to_text env).chart_type = "unknown" ∧
       (analyze_chart_to_text env).confidence = 0)) := by
  refine ⟨?_, ?_, ?_, ?_⟩
  · intro env h0
    simp [analyze_chart_to_text, h0]
  · intro env h0 h1 h2 h3 h4
    constructor <;>
      simp [analyze_chart_to_text, identify_chart_structure,
        analyze_with_gemini, h0, h1, h2, h3, h4]
  · intro env h0 h1 h2
    constructor <;>
      simp [analyze_chart_to_text, identify_chart_structure, h0, h1, h2]
  · intro env h0 h1
    constructor <;>
      simp [analyze_chart_to_text, identify_chart_structure, h0, h1]

/-- The no-client environment: `settings.ai_provider`/client check fails. -/
def noClientEnv : AnalyzeEnv :=
  { available := false,
    s1 := { call := .reply "", parse := fun _ => none, raises := false },
    s2 := { call := .reply "", parse := fun _ => none, raises := false },
    s3 := { call := .reply "", raises := false },
    context := "", outerRaises := false }

/-- C1 (witness): the amended theorem applied at the concrete
capability-failure environment and at the concrete no-client environment. -/
theorem C1_degradation_witness :
    ((capFailEnv.outerRaises = false ∧ capFailEnv.available = true ∧
      capFailEnv.s1.raises = false ∧ capFailEnv.s1.call = .raised ∧
      capFailEnv.s1.parse "Analysis failed" = none) ∧
     ((analyze_chart_to_text capFailEnv).chart_type = "chart" ∧
      (analyze_chart_to_text capFailEnv).confidence = 3/10)) ∧
    ((noClientEnv.outerRaises = false ∧ noClientEnv.available = false ∧
      noClientEnv.s1.raises = false) ∧
     ((analyze_chart_to_text noClientEnv).chart_type = "unknown" ∧
      (analyze_chart_to_text noClientEnv).confidence = 0)) :=
  ⟨⟨⟨rfl, rfl, rfl, rfl, rfl⟩,
    C1_degradation.2.1 capFailEnv rfl rfl rfl rfl rfl⟩,
   ⟨⟨rfl, rfl, rfl⟩,
    C1_degradation.2.2.1 noClientEnv rfl rfl rfl⟩⟩

/-- Two distinct fixed prefixes give distinct strings. -/
theorem related_ne_chartdata (d t : String) :
    "Related image: " ++ d ≠ "Chart data: " ++ t := by
  intro h
  have h2 := congrArg String.data h
  simp [String.data_append] at h2

/-- A value in a cache after `dictInsert` is an old value or the inserted
one. -/
theorem mem_dictValues_dictInsert {α : Type} (c : List (String × α))
    (k : String) (v : α) (a : α) (ha : a ∈ dictValues (dictInsert c k v)) :
    a ∈ dictValues c ∨ a = v := by
  unfold dictValues at ha ⊢
  unfold dictInsert at ha
  split_ifs at ha
  · simp only [List.map_map, List.mem_map] at ha
    obtain ⟨p, hp, hpa⟩ := ha
    by_cases hk : p.1 = k
    · right
      simp only [Function.comp, hk, if_true] at hpa
      exact hpa.symm
    · left
      simp only [Function.comp, hk, if_false] at hpa
      exact hpa ▸ List.mem_map_of_mem _ hp
  · simp only [List.map_append, List.mem_append, List.map_cons,
      List.map_nil, List.mem_singleton] at ha
    rcases ha with ha | ha
    · exact Or.inl ha
    · exact Or.inr ha

/-- C10 (confirmed): no `ChartAnalysis` produced by `analyze_chart_to_text`
carries an `image_id` attribute (the constructor and the analyze flow never
set one), so over any cache populated by that flow
`_get_chart_analysis_by_image_id` returns `None` for every image id, and the
visual-enrichment stage consequently builds only `"Related image: ..."`
fragments — never a `"Chart data: ..."` fragment. -/
theorem C10_no_image_id_attribute :
    (∀ env, (analyze_chart_to_text env).image_id = none) ∧
    (∀ env cache cid,
      (∀ a ∈ dictValues cache, a.image_id = none) →
      ∀ a ∈ dictValues (analyze_chart_to_text_cached env cache cid).2,
        a.image_id = none) ∧
    (∀ cache, (∀ a ∈ dictValues cache, a.image_id = none) →
      ∀ image_id, get_chart_analysis_by_image_id cache image_id = none) ∧
    (∀ cache, (∀ a ∈ dictValues cache, a.image_id = none) →
      ∀ imgs s, s ∈ visual_context_fragments cache imgs →
        (∃ d, s = "Related image: " ++ d) ∧
        ∀ t, s ≠ "Chart data: " ++ t) := by
  have himg : ∀ env, (analyze_chart_to_text env).image_id = none := by
    intro env
    unfold analyze_chart_to_text
    split_ifs <;> rfl
  have hget : ∀ (cache : List (String × ChartAnalysis)),
      (∀ a ∈ dictValues cache, a.image_id = none) →
      ∀ image_id, get_chart_analysis_by_image_id cache image_id = none := by
    intro cache hnone image_id
    unfold get_chart_analysis_by_image_id
    rw [List.find?_eq_none]
    intro x hx
    simp [hnone x hx]
  refine ⟨himg, ?_, hget, ?_⟩
  · intro env cache cid hnone a ha
    unfold analyze_chart_to_text_cached at ha
    split_ifs at ha
    · exact hnone a ha
    · rcases mem_dictValues_dictInsert _ _ _ a ha with h | h
      · exact hnone a h
      · rw [h]
        exact himg env
  · intro cache hnone imgs s hs
    unfold visual_context_fragments at hs
    rw [List.mem_flatMap] at hs
    obtain ⟨img, hmem, hs⟩ := hs
    rw [List.mem_append] at hs
    rcases hs with hs | hs
    · rcases hdesc : img.description with _ | d
      · rw [hdesc] at hs
        simp at hs
      · rw [hdesc] at hs
        by_cases hd : d = ""
        · simp [hd] at hs
        · simp only [hd, if_false] at hs
          rw [List.mem_singleton] at hs
          exact ⟨⟨d, hs⟩, fun t => hs ▸ related_ne_chartdata d t⟩
    · rw [hget cache hnone img.id] at hs
      split_ifs at hs <;> simp at hs

/-- An analysis as cached by the default flow: no `image_id` attribute. -/
def plainAnalysis : ChartAnalysis :=
  { chart_type := "chart", data_insights := emptyInsights,
    text_content := "x", confidence := 1, queryable_facts := [],
    image_id := none }

/-- C10 (witness): the lookup clause applied at a concrete one-entry cache
written by the default flow — the lookup by image id comes back `None`. -/
theorem C10_no_image_id_attribute_witness :
    (∀ a ∈ dictValues [("c1", plainAnalysis)], a.image_id = none) ∧
    get_chart_analysis_by_image_id [("c1", plainAnalysis)] "i9" = none :=
  ⟨by decide,
   C10_no_image_id_attribute.2.2.1 [("c1", plainAnalysis)] (by decide) "i9"⟩

end MultiModal
